import Mathlib

/-!
Verification of the flight-announcer LED display engine.

Shallow embedding of `src/config.py`, `src/display_controller.py` and
`src/flight_logic.py`.  Machine integers are modelled as `Int`/`Nat`
(Python integers are unbounded, so no wraparound is needed); Python
floats carrying wall-clock seconds are modelled as `Rat`; `None`-able
return values are modelled as `Option`.  The double-buffered display
state is modelled with explicit state passing.
-/

set_option maxRecDepth 100000

namespace FlightAnnouncer

/-! ## Configuration constants (`src/config.py`) -/

def MATRIX_ROWS : Int := 32

def MATRIX_COLS : Int := 64

def MATRIX_CHAIN_LENGTH : Int := 2

/-- `DISPLAY_WIDTH = MATRIX_COLS * MATRIX_CHAIN_LENGTH` (128 pixels). -/
def DISPLAY_WIDTH : Int := MATRIX_COLS * MATRIX_CHAIN_LENGTH

/-- `DISPLAY_HEIGHT = MATRIX_ROWS` (32 pixels). -/
def DISPLAY_HEIGHT : Int := MATRIX_ROWS

abbrev Color := Nat × Nat × Nat

def ROW_ONE_COLOR : Color := (100, 150, 255)

def ROW_TWO_COLOR : Color := (100, 150, 255)

def ROW_THREE_COLOR : Color := (100, 150, 255)

/-! ## Double-buffered display state (`DisplayController`)

`front_buffer`/`back_buffer` are modelled as total functions from
coordinates to colors (Python uses nested lists indexed `buffer[y][x]`;
we write `buffer x y`), `dirty_pixels` as a `Finset` of coordinates and
`dirty_regions` as a list of `(x, y, width, height)` tuples.  The
hardware matrix itself is an external sink and is not modelled; we model
the state evolution of the buffers and dirty tracking, which is the same
on the hardware and test-mode paths of `_swap_buffers`. -/

structure DCState where
  front : Int → Int → Color
  back : Int → Int → Color
  dirty_pixels : Finset (Int × Int)
  dirty_regions : List (Int × Int × Int × Int)

/-- The bounds check `0 <= x < config.DISPLAY_WIDTH and 0 <= y < config.DISPLAY_HEIGHT`. -/
def inBoundsXY (x y : Int) : Prop :=
  0 ≤ x ∧ x < DISPLAY_WIDTH ∧ 0 ≤ y ∧ y < DISPLAY_HEIGHT

instance (x y : Int) : Decidable (inBoundsXY x y) :=
  decidable_of_iff (0 ≤ x ∧ x < DISPLAY_WIDTH ∧ 0 ≤ y ∧ y < DISPLAY_HEIGHT) Iff.rfl

/-- All coordinates of the visible display area. -/
def fullArea : Finset (Int × Int) :=
  Finset.Icc 0 (DISPLAY_WIDTH - 1) ×ˢ Finset.Icc 0 (DISPLAY_HEIGHT - 1)

/-- `DisplayController._set_pixel_buffer` (on the default back buffer):
writes the pixel and marks it dirty when in bounds, otherwise does nothing. -/
def set_pixel_buffer (s : DCState) (x y : Int) (color : Color) : DCState :=
  if inBoundsXY x y then
    { s with
      back := fun x' y' => if x' = x ∧ y' = y then color else s.back x' y'
      dirty_pixels := insert (x, y) s.dirty_pixels }
  else s

/-- `DisplayController._clear_buffer` (on the default back buffer): sets every
in-area pixel to `(0, 0, 0)` and adds every in-area coordinate to `dirty_pixels`. -/
def clear_buffer (s : DCState) : DCState :=
  { s with
    back := fun x y => if inBoundsXY x y then (0, 0, 0) else s.back x y
    dirty_pixels := s.dirty_pixels ∪ fullArea }

/-- Pixels of the rectangle `(x, y, width, height)` that are in display bounds
(the in-bounds filter of `_add_dirty_region`). -/
def regionPixels (x y width height : Int) : Finset (Int × Int) :=
  (Finset.Icc x (x + width - 1) ×ˢ Finset.Icc y (y + height - 1)).filter
    (fun p => inBoundsXY p.1 p.2)

/-- `DisplayController._add_dirty_region`: appends the region tuple and adds
its in-bounds pixels to the dirty set. -/
def add_dirty_region (s : DCState) (x y width height : Int) : DCState :=
  { s with
    dirty_regions := s.dirty_regions ++ [(x, y, width, height)]
    dirty_pixels := s.dirty_pixels ∪ regionPixels x y width height }

/-- `DisplayController._swap_buffers`: swaps front and back buffers and clears
both dirty trackers (after pushing the dirty pixels to the hardware sink when
hardware is present; the buffer/dirty state evolution is identical in both
branches). -/
def swap_buffers (s : DCState) : DCState :=
  { front := s.back
    back := s.front
    dirty_pixels := ∅
    dirty_regions := [] }

/-- `DisplayController.set_pixel` — the public pixel-writing API, which
delegates to `_set_pixel_buffer`. -/
def set_pixel (s : DCState) (x y : Int) (color : Color) : DCState :=
  set_pixel_buffer s x y color

/-- `DisplayController.get_pixel`: reads the front buffer in bounds,
returns `(0, 0, 0)` out of bounds. -/
def get_pixel (s : DCState) (x y : Int) : Color :=
  if inBoundsXY x y then s.front x y else (0, 0, 0)

/-- The freshly initialized controller state (`_init_buffers`): both buffers
all-black, no dirty pixels, no dirty regions. -/
def initState : DCState :=
  { front := fun _ _ => (0, 0, 0)
    back := fun _ _ => (0, 0, 0)
    dirty_pixels := ∅
    dirty_regions := [] }

/-! ## Claims C2 and C9: dirty-pixel tracking and bounds safety -/

theorem mem_fullArea (x y : Int) :
    (x, y) ∈ fullArea ↔ inBoundsXY x y := by
  simp [fullArea, inBoundsXY, DISPLAY_WIDTH, DISPLAY_HEIGHT, MATRIX_COLS,
    MATRIX_CHAIN_LENGTH, MATRIX_ROWS, Finset.mem_product, Finset.mem_Icc]
  omega

/-- C2: dirty-pixel tracking is correct: `_clear_buffer` marks every
coordinate of the full display area dirty, setting an in-bounds pixel adds
its coordinate to the dirty set, and immediately after a buffer swap the
dirty set is empty (and remains so until the next mutating operation). -/
theorem dirty_tracking_correct (s : DCState) (x y : Int) (c : Color)
    (h : inBoundsXY x y) :
    fullArea ⊆ (clear_buffer s).dirty_pixels
      ∧ (x, y) ∈ (set_pixel_buffer s x y c).dirty_pixels
      ∧ (swap_buffers s).dirty_pixels = ∅ := by
  refine ⟨?_, ?_, rfl⟩
  · intro p hp
    simp [clear_buffer, hp]
  · simp [set_pixel_buffer, if_pos h]

theorem dirty_tracking_correct_witness :
    fullArea ⊆ (clear_buffer initState).dirty_pixels
      ∧ (3, 4) ∈ (set_pixel_buffer initState 3 4 (255, 0, 0)).dirty_pixels
      ∧ (swap_buffers initState).dirty_pixels = ∅ :=
  dirty_tracking_correct initState 3 4 (255, 0, 0) (by decide)

/-- C9: pixel access is bounds-safe: `set_pixel` writes the buffer and marks
the pixel dirty exactly when the coordinate is in bounds, silently leaving the
state unchanged out of bounds, and `get_pixel` returns the background color
`(0, 0, 0)` for every out-of-range coordinate. -/
theorem pixel_access_bounds_safe (s : DCState) (x y : Int) (c : Color) :
    (inBoundsXY x y →
        (set_pixel s x y c).back x y = c
          ∧ (x, y) ∈ (set_pixel s x y c).dirty_pixels)
      ∧ (¬ inBoundsXY x y →
          set_pixel s x y c = s ∧ get_pixel s x y = (0, 0, 0)) := by
  constructor
  · intro h
    constructor
    · simp [set_pixel, set_pixel_buffer, if_pos h]
    · simp [set_pixel, set_pixel_buffer, if_pos h]
  · intro h
    constructor
    · simp [set_pixel, set_pixel_buffer, if_neg h]
    · simp [get_pixel, if_neg h]

theorem pixel_access_bounds_safe_witness :
    ((set_pixel initState 5 6 (10, 20, 30)).back 5 6 = (10, 20, 30)
        ∧ (5, 6) ∈ (set_pixel initState 5 6 (10, 20, 30)).dirty_pixels)
      ∧ (set_pixel initState 200 0 (10, 20, 30) = initState
        ∧ get_pixel initState 200 0 = (0, 0, 0)) :=
  ⟨(pixel_access_bounds_safe initState 5 6 (10, 20, 30)).1 (by decide),
   (pixel_access_bounds_safe initState 200 0 (10, 20, 30)).2 (by decide)⟩

/-! ## Flight / no-traffic rendering (`show_flight_info`, `show_no_flights_message`)

These methods clear the back buffer, issue a sequence of text/flag draw
calls, and swap buffers.  We model the sequence of draw calls between the
clear and the swap: `DrawOp.text s x y c` is a call
`_draw_text_to_buffer(s, x, y, c)` and `DrawOp.flag x y` is a call
`_draw_canada_flag(x, y)`.  Python `//` is floor division, hence `Int.fdiv`. -/

def orange_color : Color := (255, 165, 0)

def light_blue_color : Color := (173, 216, 230)

def purple_color : Color := (128, 0, 128)

/-- `CANADIAN_AIRPORTS = {"YYZ", "YUL", "YVR"}` from `src/flight_logic.py`. -/
def CANADIAN_AIRPORTS : List String := ["YYZ", "YUL", "YVR"]

inductive DrawOp where
  | text (s : String) (x y : Int) (color : Color)
  | flag (x y : Int)
deriving DecidableEq

def isFlagOp : DrawOp → Bool
  | DrawOp.flag _ _ => true
  | _ => false

/-- The texts of the text draw calls, in order. -/
def rowTexts (ops : List DrawOp) : List String :=
  ops.filterMap fun op =>
    match op with
    | DrawOp.text s _ _ _ => some s
    | _ => none

/-- Python `pat in s` substring test. -/
def containsStr (pat s : String) : Bool :=
  decide (pat.data <:+: s.data)

/-- A flight-data dictionary as consumed by `show_flight_info`
(`flight_data.get(key, default)` is modelled by `Option.getD`). -/
structure FlightData where
  callsign : Option String := none
  route : Option String := none
  aircraft_type : Option String := none
  origin : Option String := none
  is_private_jet : Bool := false

/-- `DisplayController.show_flight_info`, at the draw-call level:
line 1 aircraft type at y=2 (flag-prefixed when the type contains
"Canadair"), line 2 callsign at y=12, line 3 route at y=22
(flag-prefixed when the origin code is a Canadian airport). -/
def show_flight_info (flight_data : FlightData) : List DrawOp :=
  let callsign := flight_data.callsign.getD "Unknown"
  let route := flight_data.route.getD ""
  let aircraft_type := flight_data.aircraft_type.getD ""
  let origin_code := flight_data.origin.getD ""
  let is_canadian_aircraft := (aircraft_type != "") && containsStr "Canadair" aircraft_type
  let line1 : List DrawOp :=
    if aircraft_type = "" then []
    else if is_canadian_aircraft then
      let flag_width : Int := 13
      let flag_spacing : Int := 2
      let aircraft_type_width : Int := (aircraft_type.length : Int) * 6
      let total_width := flag_width + flag_spacing + aircraft_type_width
      let start_x := Int.fdiv (DISPLAY_WIDTH - total_width) 2
      [DrawOp.flag start_x 2,
       DrawOp.text aircraft_type (start_x + flag_width + flag_spacing) 2 purple_color]
    else
      let aircraft_type_width : Int := (aircraft_type.length : Int) * 6
      [DrawOp.text aircraft_type (Int.fdiv (DISPLAY_WIDTH - aircraft_type_width) 2) 2
        purple_color]
  let callsign_width : Int := (callsign.length : Int) * 6
  let line2 : List DrawOp :=
    [DrawOp.text callsign (Int.fdiv (DISPLAY_WIDTH - callsign_width) 2) 12 orange_color]
  let is_canadian_origin := origin_code ∈ CANADIAN_AIRPORTS
  let line3 : List DrawOp :=
    if is_canadian_origin then
      let flag_width : Int := 13
      let flag_spacing : Int := 2
      let route_width : Int := (route.length : Int) * 6
      let total_width := flag_width + flag_spacing + route_width
      let start_x := Int.fdiv (DISPLAY_WIDTH - total_width) 2
      [DrawOp.flag start_x 22,
       DrawOp.text route (start_x + flag_width + flag_spacing) 22 light_blue_color]
    else
      let route_width : Int := (route.length : Int) * 6
      [DrawOp.text route (Int.fdiv (DISPLAY_WIDTH - route_width) 2) 22 light_blue_color]
  line1 ++ line2 ++ line3

/-- `DisplayController.show_no_flights_message`: the message payload is
ignored; three fixed text rows are drawn. -/
def show_no_flights_message (_message_data : List (String × String)) : List DrawOp :=
  [DrawOp.text "No Approach" 1 2 ROW_ONE_COLOR,
   DrawOp.text "Traffic" 1 12 ROW_TWO_COLOR,
   DrawOp.text "Detected" 1 22 ROW_THREE_COLOR]

/-! ## Claim C5: callsign row and Canadian-origin flag -/

/-- C5: in Flight mode the callsign row (y=12) renders the record's callsign
exactly, and the route row (y=22) is prefixed with the Canada-flag icon if and
only if the record's origin airport code is in the fixed Canadian-airport set
{YYZ, YUL, YVR}. -/
theorem callsign_row_and_origin_flag (fd : FlightData) (c r o : String)
    (hc : fd.callsign = some c) (hr : fd.route = some r) (ho : fd.origin = some o) :
    (∃ x, DrawOp.text c x 12 orange_color ∈ show_flight_info fd)
      ∧ ((∃ x, DrawOp.flag x 22 ∈ show_flight_info fd) ↔ o ∈ CANADIAN_AIRPORTS) := by
  by_cases hA : fd.aircraft_type.getD "" = "" <;>
    by_cases hB : containsStr "Canadair" (fd.aircraft_type.getD "") = true <;>
      by_cases hC : o ∈ CANADIAN_AIRPORTS <;>
        simp [show_flight_info, hc, hr, ho, hA, hB, hC,
          orange_color, light_blue_color, purple_color]

theorem callsign_row_and_origin_flag_witness :
    (∃ x, DrawOp.text "Air Canada 123" x 12 orange_color ∈
        show_flight_info
          { callsign := some "Air Canada 123", route := some "Toronto → LGA",
            aircraft_type := some "Airbus A220-300", origin := some "YYZ" })
      ∧ ((∃ x, DrawOp.flag x 22 ∈
            show_flight_info
              { callsign := some "Air Canada 123", route := some "Toronto → LGA",
                aircraft_type := some "Airbus A220-300", origin := some "YYZ" })
          ↔ "YYZ" ∈ CANADIAN_AIRPORTS) :=
  callsign_row_and_origin_flag _ _ _ _ rfl rfl rfl

/-! ## Claim C6: aircraft-type row markers

The claim says row 0 is flag-prefixed for every Canadian manufacturer
(e.g. Bombardier as well as Canadair) and that private jets get a
distinguishing icon/text; the code only checks `"Canadair" in aircraft_type`
and ignores `is_private_jet`. -/

/-- A Bombardier private jet, as produced by `flight_logic._parse_flight_data`. -/
def bombardierJet : FlightData :=
  { callsign := some "N123AB", route := some "Teterboro → LGA",
    aircraft_type := some "Bombardier Global", origin := some "TEB",
    is_private_jet := true }

/-- C6 counterexample: for a Bombardier private-jet record the renderer draws
plain rows with no flag and no distinguishing icon/text anywhere. -/
theorem bombardier_jet_gets_no_marker :
    show_flight_info bombardierJet =
      [DrawOp.text "Bombardier Global" 13 2 purple_color,
       DrawOp.text "N123AB" 46 12 orange_color,
       DrawOp.text "Teterboro → LGA" 19 22 light_blue_color]
      ∧ (show_flight_info bombardierJet).any isFlagOp = false := by
  decide

/-- C6 (amended): row 0 shows the aircraft type at y=2, prefixed with the
Canada-flag icon if and only if the aircraft type string contains the marker
"Canadair"; other Canadian manufacturers (e.g. Bombardier) and private jets
receive no flag and no distinguishing icon/text. -/
theorem aircraft_row_canadair_flag (fd : FlightData) (a : String)
    (ha : fd.aircraft_type = some a) (hne : a ≠ "") :
    ((∃ x, DrawOp.flag x 2 ∈ show_flight_info fd)
        ↔ containsStr "Canadair" a = true)
      ∧ (∃ x, DrawOp.text a x 2 purple_color ∈ show_flight_info fd) := by
  by_cases hB : containsStr "Canadair" a = true <;>
    by_cases hC : fd.origin.getD "" ∈ CANADIAN_AIRPORTS <;>
      simp [show_flight_info, ha, hne, hB, hC,
        orange_color, light_blue_color, purple_color]

theorem aircraft_row_canadair_flag_witness :
    ((∃ x, DrawOp.flag x 2 ∈
        show_flight_info
          { callsign := some "Endeavor 5361", route := some "Toronto → LGA",
            aircraft_type := some "Canadair CRJ-900", origin := some "YYZ" })
        ↔ containsStr "Canadair" "Canadair CRJ-900" = true)
      ∧ (∃ x, DrawOp.text "Canadair CRJ-900" x 2 purple_color ∈
          show_flight_info
            { callsign := some "Endeavor 5361", route := some "Toronto → LGA",
              aircraft_type := some "Canadair CRJ-900", origin := some "YYZ" }) :=
  aircraft_row_canadair_flag _ _ rfl (by decide)

/-! ## Claim C7: the no-traffic screen

The claim (from the spec) says the three static rows are "<runway> ACTIVE" /
"No Approach" / "Traffic"; the code draws "No Approach" / "Traffic" /
"Detected" and never renders a "<runway> ACTIVE" row. -/

/-- C7 counterexample: with a concrete payload carrying runway "04", the
rendered rows are "No Approach" / "Traffic" / "Detected" — not
"04 ACTIVE" / "No Approach" / "Traffic" as claimed, and no row mentions
"ACTIVE". -/
theorem no_traffic_rows_counterexample :
    rowTexts (show_no_flights_message [("runway", "04")]) =
        ["No Approach", "Traffic", "Detected"]
      ∧ rowTexts (show_no_flights_message [("runway", "04")]) ≠
        ["04 ACTIVE", "No Approach", "Traffic"]
      ∧ (rowTexts (show_no_flights_message [("runway", "04")])).any
          (fun s => containsStr "ACTIVE" s) = false := by
  decide

/-- C7 (amended): in NoTraffic mode the render produces three static rows
whose fixed texts are "No Approach", "Traffic" and "Detected" respectively,
for every input message payload. -/
theorem no_traffic_rows_static (message_data : List (String × String)) :
    show_no_flights_message message_data =
      [DrawOp.text "No Approach" 1 2 ROW_ONE_COLOR,
       DrawOp.text "Traffic" 1 12 ROW_TWO_COLOR,
       DrawOp.text "Detected" 1 22 ROW_THREE_COLOR] := rfl

/-! ## Celebration sequence (`show_plane_celebration`)

`show_plane_celebration` runs `_flash_incoming_plane_text`, then
`_animate_plane_crossing`, then `show_flight_info`.  We model the flash as
the list of presented screens with their dwell seconds, and the animation
as the list of on-screen sprite pixel sets of the successive frames. -/

/-- The 10x10 plane sprite of `_animate_plane_crossing`. -/
def plane_pattern : List String :=
  ["          ",
   "      PP  ",
   "    PPP   ",
   "  PPP   PP",
   "PPPPPPPPPP",
   "PPPPPPPPPP",
   "  PPP   PP",
   "    PPP   ",
   "      PP  ",
   "          "]

/-- The `(col, row)` offsets of the sprite cells marked `P`. -/
def planeCells : List (Nat × Nat) :=
  plane_pattern.enum.flatMap fun rowLine =>
    rowLine.2.data.enum.flatMap fun colChar =>
      if colChar.2 = 'P' then [(colChar.1, rowLine.1)] else []

/-- The on-screen pixels of the sprite drawn with its corner at `(x, y)`
(`_draw_plane_to_buffer` only writes pixels that pass the display bounds
check). -/
def planeOnScreen (x y : Int) : List (Int × Int) :=
  planeCells.filterMap fun cell =>
    let px := x + (cell.1 : Int)
    let py := y + (cell.2 : Int)
    if inBoundsXY px py then some (px, py) else none

/-- The x positions of the animation frames:
Python `range(config.DISPLAY_WIDTH, -10, -1)`, i.e. 128 down to -9. -/
def animationXs : List Int :=
  (List.range 138).map fun i => DISPLAY_WIDTH - (i : Int)

/-- The frames presented by `_animate_plane_crossing`: each frame clears the
buffer, draws the sprite at `(x, center_y - 5)` with
`center_y = DISPLAY_HEIGHT // 2 = 16`, and swaps. -/
def animationFrames : List (List (Int × Int)) :=
  animationXs.map fun x => planeOnScreen x (DISPLAY_HEIGHT.fdiv 2 - 5)

/-- The screens presented by `_flash_incoming_plane_text` with their dwell
seconds: each of the two loop iterations draws the centered banner, holds it
1.0 s, then blanks the screen and holds 1.0 s. -/
def flashSchedule : List (Option String × ℚ) :=
  (List.range 2).flatMap fun _ => [(some "Incoming Plane", 1), (none, 1)]

structure CelebrationTrace where
  flash : List (Option String × ℚ)
  animation : List (List (Int × Int))
  final : List DrawOp

/-- `DisplayController.show_plane_celebration`: flash, then animation, then
the steady-state flight-info display of the detected record. -/
def show_plane_celebration (flight_data : FlightData) : CelebrationTrace :=
  { flash := flashSchedule
    animation := animationFrames
    final := show_flight_info flight_data }

/-! ## Claim C4: the celebration sequence

The flash and ordering parts of the claim hold, but the sweep is *not* "fully
off the left edge" at the end: the loop `range(128, -10, -1)` stops at
`x = -9`, where the sprite's rightmost column is still visible at screen
column 0. -/

/-- A sample flight record (shape of `flight_logic._parse_flight_data` output). -/
def sampleFlight : FlightData :=
  { callsign := some "United 123", route := some "Chicago → LGA",
    aircraft_type := some "Boeing 737", origin := some "ORD",
    is_private_jet := false }

/-- C4 counterexample: the final animation frame (sprite corner at
`x = -9`) still shows four sprite pixels in screen column 0, contradicting
"no sprite pixel remains on screen in the final animation frame". -/
theorem final_frame_still_on_screen :
    (show_plane_celebration sampleFlight).animation.getLast? =
        some [(0, 14), (0, 15), (0, 16), (0, 17)]
      ∧ animationXs.getLast? = some (-9) := by
  decide

/-- C4 (amended): the celebration performs exactly three steps in order —
the centered banner is flashed twice (draw 1.0 s, blank 1.0 s each,
4.0 s total), then the fixed 10x10 sprite moves one pixel-column per tick
from fully off the right edge (first frame at x = 128 shows no pixel) down
to x = -9, whose frame still shows the sprite's rightmost column at screen
column 0 (one column short of fully off the left edge), and then the
steady-state flight-info display of the detected record is shown. -/
theorem celebration_sequence (flight_data : FlightData) :
    (show_plane_celebration flight_data).flash =
        [(some "Incoming Plane", 1), (none, 1), (some "Incoming Plane", 1), (none, 1)]
      ∧ ((show_plane_celebration flight_data).flash.map Prod.snd).sum = 4
      ∧ (show_plane_celebration flight_data).animation =
          (List.range 138).map (fun i => planeOnScreen (128 - (i : Int)) 11)
      ∧ animationXs.head? = some 128
      ∧ planeOnScreen 128 11 = []
      ∧ animationXs.getLast? = some (-9)
      ∧ planeOnScreen (-9) 11 ≠ []
      ∧ (show_plane_celebration flight_data).final = show_flight_info flight_data := by
  simp only [show_plane_celebration]
  have hflash : flashSchedule =
      [(some "Incoming Plane", 1), (none, 1), (some "Incoming Plane", 1), (none, 1)] := by
    decide
  refine ⟨hflash, ?_, by decide, by decide, by decide, by decide, by decide, trivial⟩
  rw [hflash]
  norm_num

/-! ## Text drawing (`_draw_text_to_buffer`)

The 5x8 font of `_draw_text_to_buffer`: each glyph is 8 rows of 5-bit
patterns; a bit set at position `4 - col` lights pixel `(char_x + col,
y + row)`.  Each character cell advances the cursor by 6 pixels; characters
absent from the table draw nothing but still advance. -/

def font_patterns : List (Char × List Nat) :=
  [('0', [0b11111, 0b10001, 0b10001, 0b10001, 0b10001, 0b10001, 0b10001, 0b11111]),
   ('1', [0b00100, 0b01100, 0b00100, 0b00100, 0b00100, 0b00100, 0b00100, 0b11111]),
   ('2', [0b11111, 0b00001, 0b00001, 0b11111, 0b10000, 0b10000, 0b10000, 0b11111]),
   ('3', [0b11111, 0b00001, 0b00001, 0b11111, 0b00001, 0b00001, 0b00001, 0b11111]),
   ('4', [0b10001, 0b10001, 0b10001, 0b11111, 0b00001, 0b00001, 0b00001, 0b00001]),
   ('5', [0b11111, 0b10000, 0b10000, 0b11111, 0b00001, 0b00001, 0b00001, 0b11111]),
   ('6', [0b11111, 0b10000, 0b10000, 0b11111, 0b10001, 0b10001, 0b10001, 0b11111]),
   ('7', [0b11111, 0b00001, 0b00001, 0b00010, 0b00100, 0b01000, 0b01000, 0b01000]),
   ('8', [0b11111, 0b10001, 0b10001, 0b11111, 0b10001, 0b10001, 0b10001, 0b11111]),
   ('9', [0b11111, 0b10001, 0b10001, 0b11111, 0b00001, 0b00001, 0b00001, 0b11111]),
   ('A', [0b11111, 0b10001, 0b10001, 0b11111, 0b10001, 0b10001, 0b10001, 0b10001]),
   ('B', [0b11110, 0b10001, 0b10001, 0b11110, 0b10001, 0b10001, 0b10001, 0b11110]),
   ('C', [0b11111, 0b10000, 0b10000, 0b10000, 0b10000, 0b10000, 0b10000, 0b11111]),
   ('D', [0b11110, 0b10001, 0b10001, 0b10001, 0b10001, 0b10001, 0b10001, 0b11110]),
   ('E', [0b11111, 0b10000, 0b10000, 0b11111, 0b10000, 0b10000, 0b10000, 0b11111]),
   ('F', [0b11111, 0b10000, 0b10000, 0b11111, 0b10000, 0b10000, 0b10000, 0b10000]),
   ('G', [0b11111, 0b10000, 0b10000, 0b10111, 0b10001, 0b10001, 0b10001, 0b11111]),
   ('H', [0b10001, 0b10001, 0b10001, 0b11111, 0b10001, 0b10001, 0b10001, 0b10001]),
   ('I', [0b11111, 0b00100, 0b00100, 0b00100, 0b00100, 0b00100, 0b00100, 0b11111]),
   ('J', [0b11111, 0b00001, 0b00001, 0b00001, 0b00001, 0b10001, 0b10001, 0b11111]),
   ('K', [0b10001, 0b10010, 0b10100, 0b11000, 0b10100, 0b10010, 0b10001, 0b10001]),
   ('L', [0b10000, 0b10000, 0b10000, 0b10000, 0b10000, 0b10000, 0b10000, 0b11111]),
   ('M', [0b10001, 0b11011, 0b10101, 0b10001, 0b10001, 0b10001, 0b10001, 0b10001]),
   ('N', [0b10001, 0b11001, 0b10101, 0b10101, 0b10011, 0b10001, 0b10001, 0b10001]),
   ('O', [0b11111, 0b10001, 0b10001, 0b10001, 0b10001, 0b10001, 0b10001, 0b11111]),
   ('P', [0b11111, 0b10001, 0b10001, 0b11111, 0b10000, 0b10000, 0b10000, 0b10000]),
   ('Q', [0b11111, 0b10001, 0b10001, 0b10001, 0b10101, 0b10011, 0b10001, 0b11111]),
   ('R', [0b11111, 0b10001, 0b10001, 0b11111, 0b10100, 0b10010, 0b10001, 0b10001]),
   ('S', [0b11111, 0b10000, 0b10000, 0b11111, 0b00001, 0b00001, 0b00001, 0b11111]),
   ('T', [0b11111, 0b00100, 0b00100, 0b00100, 0b00100, 0b00100, 0b00100, 0b00100]),
   ('U', [0b10001, 0b10001, 0b10001, 0b10001, 0b10001, 0b10001, 0b10001, 0b11111]),
   ('V', [0b10001, 0b10001, 0b10001, 0b10001, 0b10001, 0b01010, 0b01010, 0b00100]),
   ('W', [0b10001, 0b10001, 0b10001, 0b10001, 0b10001, 0b10101, 0b11011, 0b10001]),
   ('X', [0b10001, 0b10001, 0b01010, 0b00100, 0b01010, 0b10001, 0b10001, 0b10001]),
   ('Y', [0b10001, 0b10001, 0b01010, 0b00100, 0b00100, 0b00100, 0b00100, 0b00100]),
   ('Z', [0b11111, 0b00001, 0b00010, 0b00100, 0b01000, 0b10000, 0b10000, 0b11111]),
   (' ', [0b00000, 0b00000, 0b00000, 0b00000, 0b00000, 0b00000, 0b00000, 0b00000]),
   (':', [0b00000, 0b00100, 0b00100, 0b00000, 0b00000, 0b00100, 0b00100, 0b00000]),
   ('-', [0b00000, 0b00000, 0b00000, 0b11111, 0b00000, 0b00000, 0b00000, 0b00000]),
   ('→', [0b00000, 0b00100, 0b00010, 0b11111, 0b00010, 0b00100, 0b00000, 0b00000]),
   ('.', [0b00000, 0b00000, 0b00000, 0b00000, 0b00000, 0b00000, 0b00100, 0b00100]),
   ('@', [0b11111, 0b10001, 0b10101, 0b10111, 0b10110, 0b10000, 0b10000, 0b11111]),
   ('/', [0b00001, 0b00001, 0b00010, 0b00100, 0b01000, 0b10000, 0b10000, 0b10000]),
   ('°', [0b01110, 0b10001, 0b10001, 0b01110, 0b00000, 0b00000, 0b00000, 0b00000])]

/-- The glyph-table lookup `patterns[char]` (`None` when absent). -/
def font (c : Char) : Option (List Nat) :=
  font_patterns.lookup c

/-- Drawing one character cell: known glyphs light the buffer pixels whose
pattern bit `1 << (4 - col)` is set; unknown characters draw nothing. -/
def drawCharToBuffer (s : DCState) (ch : Char) (x y : Int) (color : Color) : DCState :=
  match font ch with
  | some pattern =>
    (List.range 8).foldl
      (fun s1 row =>
        (List.range 5).foldl
          (fun s2 col =>
            if (pattern.getD row 0).testBit (4 - col) then
              set_pixel_buffer s2 (x + (col : Int)) (y + (row : Int)) color
            else s2)
          s1)
      s
  | none => s

/-- The character loop of `_draw_text_to_buffer`: every character advances
the cursor by exactly 6 pixels. -/
def drawTextAux (s : DCState) (cs : List Char) (x y : Int) (color : Color) : DCState :=
  match cs with
  | [] => s
  | c :: rest => drawTextAux (drawCharToBuffer s c x y color) rest (x + 6) y color

/-- `DisplayController._draw_text_to_buffer`: records the dirty bounding
region `(x, y, len(text) * 6, 8)` and then draws the uppercased characters. -/
def draw_text_to_buffer (s : DCState) (text : String) (x y : Int) (color : Color) : DCState :=
  drawTextAux (add_dirty_region s x y ((text.length : Int) * 6) 8) text.toUpper.data x y color

/-! ## Claim C8: fixed 6-pixel glyph advance -/

theorem foldl_dirty_regions {α : Type} (f : DCState → α → DCState)
    (hf : ∀ s a, (f s a).dirty_regions = s.dirty_regions) :
    ∀ (l : List α) (s : DCState), (l.foldl f s).dirty_regions = s.dirty_regions := by
  intro l
  induction l with
  | nil => intro s; rfl
  | cons a t ih => intro s; rw [List.foldl_cons, ih, hf]

theorem set_pixel_buffer_dirty_regions (s : DCState) (x y : Int) (c : Color) :
    (set_pixel_buffer s x y c).dirty_regions = s.dirty_regions := by
  unfold set_pixel_buffer
  split <;> rfl

theorem drawCharToBuffer_dirty_regions (s : DCState) (ch : Char) (x y : Int) (c : Color) :
    (drawCharToBuffer s ch x y c).dirty_regions = s.dirty_regions := by
  unfold drawCharToBuffer
  split
  · apply foldl_dirty_regions
    intro s1 row
    apply foldl_dirty_regions
    intro s2 col
    split
    · exact set_pixel_buffer_dirty_regions ..
    · rfl
  · rfl

theorem drawTextAux_dirty_regions (cs : List Char) :
    ∀ (s : DCState) (x y : Int) (c : Color),
      (drawTextAux s cs x y c).dirty_regions = s.dirty_regions := by
  induction cs with
  | nil => intro s x y c; rfl
  | cons a t ih =>
    intro s x y c
    rw [drawTextAux, ih, drawCharToBuffer_dirty_regions]

theorem drawTextAux_append (cs₁ cs₂ : List Char) (y : Int) (color : Color) :
    ∀ (s : DCState) (x : Int),
      drawTextAux s (cs₁ ++ cs₂) x y color =
        drawTextAux (drawTextAux s cs₁ x y color) cs₂ (x + (cs₁.length : Int) * 6) y color := by
  induction cs₁ with
  | nil => intro s x; simp [drawTextAux]
  | cons a t ih =>
    intro s x
    simp only [List.cons_append, drawTextAux, List.append_eq]
    rw [ih]
    congr 1
    simp only [List.length_cons]
    push_cast
    ring

/-- C8: text layout uses a fixed per-glyph advance of 6 pixels: drawing a
string of length n at column x records the dirty bounding region
`(x, y, 6 * n, 8)`; a glyph absent from the font table draws no pixel (the
state is untouched); and after any prefix of the character stream the cursor
sits exactly 6 pixels per character further right (skip-draw, not
skip-advance). -/
theorem text_layout_fixed_advance (s : DCState) (text : String) (x y : Int)
    (color : Color) (c : Char) (cs₁ cs₂ : List Char) (s' : DCState) (x' : Int)
    (hc : font c = none) :
    (x, y, (text.length : Int) * 6, 8) ∈ (draw_text_to_buffer s text x y color).dirty_regions
      ∧ drawCharToBuffer s' c x' y color = s'
      ∧ drawTextAux s' (cs₁ ++ cs₂) x' y color =
          drawTextAux (drawTextAux s' cs₁ x' y color) cs₂
            (x' + (cs₁.length : Int) * 6) y color := by
  refine ⟨?_, ?_, drawTextAux_append cs₁ cs₂ y color s' x'⟩
  · rw [draw_text_to_buffer, drawTextAux_dirty_regions]
    simp [add_dirty_region]
  · simp [drawCharToBuffer, hc]

theorem text_layout_fixed_advance_witness :
    ((1 : Int), (2 : Int), ((String.length "LGA!" : Nat) : Int) * 6, (8 : Int)) ∈
        (draw_text_to_buffer initState "LGA!" 1 2 (255, 0, 0)).dirty_regions
      ∧ drawCharToBuffer initState '!' 7 2 (255, 0, 0) = initState
      ∧ drawTextAux initState (['L'] ++ ['G']) 7 2 (255, 0, 0) =
          drawTextAux (drawTextAux initState ['L'] 7 2 (255, 0, 0)) ['G']
            (7 + ((List.length ['L'] : Nat) : Int) * 6) 2 (255, 0, 0) :=
  text_layout_fixed_advance initState "LGA!" 1 2 (255, 0, 0) '!' ['L'] ['G']
    initState 7 (by decide)

/-! ## Weather-condition classification (`_parse_weather_condition`) -/

/-- Python `str.upper()` (the METAR strings involved are ASCII). -/
def toUpperStr (s : String) : String :=
  String.mk (s.data.map Char.toUpper)

/-- The precipitation codes checked by `_parse_weather_condition`. -/
def precip_codes : List String :=
  ["RA", "SHRA", "TSRA", "DZ", "SN", "SHSN", "BLSN", "TS", "VCTS"]

/-- `any(precip in metar_upper for precip in [...])`. -/
def hasPrecip (metar : String) : Bool :=
  precip_codes.any fun p => containsStr p (toUpperStr metar)

/-- `'CLR' in metar_upper or 'SKC' in metar_upper`. -/
def hasClearCode (metar : String) : Bool :=
  containsStr "CLR" (toUpperStr metar) || containsStr "SKC" (toUpperStr metar)

/-- `DisplayController._parse_weather_condition`: `None`/empty input is
"cloudy" (the `if not metar` guard); any precipitation code wins ("rainy");
then CLR/SKC gives "sunny"; everything else is "cloudy". -/
def parse_weather_condition (metar : Option String) : String :=
  match metar with
  | none => "cloudy"
  | some m =>
    if m = "" then "cloudy"
    else if hasPrecip m then "rainy"
    else if hasClearCode m then "sunny"
    else "cloudy"

/-! ## Claim C10: total three-valued weather classification -/

/-- C10: `_parse_weather_condition` is total and three-valued: every input
(including `None` and the empty string) yields exactly one of "rainy",
"sunny" or "cloudy"; a precipitation code forces "rainy" (even in the
presence of CLR/SKC, which are only consulted afterwards); CLR/SKC without
precipitation gives "sunny"; everything else — absent input included —
gives "cloudy". -/
theorem weather_condition_three_valued (m : Option String) (s : String) :
    (parse_weather_condition m = "rainy" ∨ parse_weather_condition m = "sunny"
        ∨ parse_weather_condition m = "cloudy")
      ∧ parse_weather_condition none = "cloudy"
      ∧ (hasPrecip s = true → parse_weather_condition (some s) = "rainy")
      ∧ (hasPrecip s = false → hasClearCode s = true →
          parse_weather_condition (some s) = "sunny")
      ∧ (hasPrecip s = false → hasClearCode s = false →
          parse_weather_condition (some s) = "cloudy") := by
  refine ⟨?_, rfl, ?_, ?_, ?_⟩
  · match m with
    | none => exact Or.inr (Or.inr rfl)
    | some m' =>
      by_cases h0 : m' = ""
      · exact Or.inr (Or.inr (by simp [parse_weather_condition, h0]))
      · by_cases hp : hasPrecip m'
        · exact Or.inl (by simp [parse_weather_condition, h0, hp])
        · by_cases hc : hasClearCode m'
          · exact Or.inr (Or.inl (by simp [parse_weather_condition, h0, hp, hc]))
          · exact Or.inr (Or.inr (by simp [parse_weather_condition, h0, hp, hc]))
  · intro hp
    by_cases h0 : s = ""
    · subst h0
      exact absurd hp (by decide)
    · simp [parse_weather_condition, h0, hp]
  · intro hp hc
    by_cases h0 : s = ""
    · subst h0
      exact absurd hc (by decide)
    · simp [parse_weather_condition, h0, hp, hc]
  · intro hp hc
    by_cases h0 : s = ""
    · subst h0
      simp [parse_weather_condition]
    · simp [parse_weather_condition, h0, hp, hc]

theorem weather_condition_three_valued_witness :
    parse_weather_condition (some "METAR KLGA TSRA CLR 31/21") = "rainy"
      ∧ parse_weather_condition (some "METAR KLGA CLR 31/21") = "sunny"
      ∧ parse_weather_condition (some "METAR KLGA OVC010 31/21") = "cloudy"
      ∧ parse_weather_condition none = "cloudy" :=
  ⟨(weather_condition_three_valued none "METAR KLGA TSRA CLR 31/21").2.2.1 (by decide),
   (weather_condition_three_valued none "METAR KLGA CLR 31/21").2.2.2.1
     (by decide) (by decide),
   (weather_condition_three_valued none "METAR KLGA OVC010 31/21").2.2.2.2
     (by decide) (by decide),
   (weather_condition_three_valued none "x").2.1⟩

/-! ## METAR field extraction (`_extract_temperature_from_metar`,
`_extract_wind_from_metar`)

Both Python functions are regex searches (`re.search`) that return `None`
when the pattern is absent.  We embed the searches directly: a leftmost scan
that at each position attempts the pattern with the regex's greedy /
backtracking order, and `Option` results standing for the `None` sentinel.
The Lean functions are total by construction, which mirrors the fact that
the Python bodies cannot raise (the `try/except` is dead defence). -/

/-- The leftmost-greedy search for `(\d+)/(\d+)` returning group 1: at each
starting position a digit run is maximal, must be followed by `/` and one
more digit; otherwise the scan advances one character. -/
def findTemp : List Char → Option (List Char)
  | [] => none
  | c :: rest =>
    if c.isDigit then
      match (c :: rest).dropWhile Char.isDigit with
      | '/' :: d :: _ =>
        if d.isDigit then some ((c :: rest).takeWhile Char.isDigit)
        else findTemp rest
      | _ => findTemp rest
    else findTemp rest

/-- `DisplayController._extract_temperature_from_metar`: `None` on falsy
input, else `re.search(r'(\d+)/(\d+)', metar)`, formatting group 1 as
`f"{temp}°C"`, `None` when the pattern is absent. -/
def extract_temperature_from_metar (metar : String) : Option String :=
  if metar = "" then none
  else
    match findTemp metar.data with
    | some temp => some (String.mk temp ++ "°C")
    | none => none

/-- Take exactly `n` leading digits, returning them and the remainder. -/
def grabDigits (l : List Char) (n : Nat) : Option (List Char × List Char) :=
  if (l.take n).length = n ∧ (l.take n).all Char.isDigit then some (l.take n, l.drop n)
  else none

def startsKT : List Char → Bool
  | 'K' :: 'T' :: _ => true
  | _ => false

abbrev WindGroups := List Char × List Char × Option (List Char)

/-- The optional gust group `(?:G(\d{2,3}))?` followed by `KT`, attempted in
regex order: gust of 3 digits, then gust of 2 digits. -/
def tryGust (dir spd : List Char) (r2 : List Char) : Option WindGroups :=
  match r2 with
  | 'G' :: r3 =>
    match grabDigits r3 3 with
    | some (g, r4) =>
      if startsKT r4 then some (dir, spd, some g)
      else
        match grabDigits r3 2 with
        | some (g2, r5) => if startsKT r5 then some (dir, spd, some g2) else none
        | none => none
    | none =>
      match grabDigits r3 2 with
      | some (g2, r5) => if startsKT r5 then some (dir, spd, some g2) else none
      | none => none
  | _ => none

/-- The gust group skipped: `KT` must follow the speed directly. -/
def tryNoGust (dir spd : List Char) (r2 : List Char) : Option WindGroups :=
  if startsKT r2 then some (dir, spd, none) else none

/-- Speed group `(\d{2,3})` of the given width, then gust-or-no-gust. -/
def trySpeed (dir : List Char) (r1 : List Char) (n : Nat) : Option WindGroups :=
  match grabDigits r1 n with
  | some (spd, r2) =>
    match tryGust dir spd r2 with
    | some g => some g
    | none => tryNoGust dir spd r2
  | none => none

/-- The pattern `(\d{3})(\d{2,3})(?:G(\d{2,3}))?KT` anchored at the start of
`l`, with the regex's greedy order (speed width 3 before 2). -/
def matchWindAt (l : List Char) : Option WindGroups :=
  match grabDigits l 3 with
  | some (dir, r1) =>
    match trySpeed dir r1 3 with
    | some g => some g
    | none => trySpeed dir r1 2
  | none => none

/-- The leftmost `re.search` scan for the wind pattern. -/
def findWind : List Char → Option WindGroups
  | [] => none
  | c :: rest =>
    match matchWindAt (c :: rest) with
    | some g => some g
    | none => findWind rest

/-- Python `speed.lstrip('0') or '0'`. -/
def stripZeros (l : List Char) : List Char :=
  let r := l.dropWhile fun c => c == '0'
  if r = [] then ['0'] else r

/-- `DisplayController._extract_wind_from_metar`: `None` on falsy input,
else the wind-pattern search, formatted `f"{direction}@{speed}G{gust}kt"` or
`f"{direction}@{speed}kt"`, `None` when the pattern is absent. -/
def extract_wind_from_metar (metar : String) : Option String :=
  if metar = "" then none
  else
    match findWind metar.data with
    | some (dir, spd, gust) =>
      match gust with
      | some g =>
        some (String.mk dir ++ "@" ++ String.mk (stripZeros spd) ++ "G" ++
          String.mk (stripZeros g) ++ "kt")
      | none => some (String.mk dir ++ "@" ++ String.mk (stripZeros spd) ++ "kt")
    | none => none

/-! ### Spec-side pattern presence predicates (used to state C3)

`hasTempPattern`/`hasWindPattern` describe, independently of the extractor
implementations, that some position of the string carries the regex shape. -/

/-- The string contains a digit, a `/` and a digit consecutively — exactly
when `re.search(r'(\d+)/(\d+)', s)` matches. -/
def hasTempPattern : List Char → Bool
  | a :: b :: c :: rest => (a.isDigit && b == '/' && c.isDigit) || hasTempPattern (b :: c :: rest)
  | _ => false

/-- `l` starts with `n` digits. -/
def digitsRun (l : List Char) (n : Nat) : Bool :=
  (l.take n).length == n && (l.take n).all Char.isDigit

/-- After direction and speed: either `KT` directly or `G`, 2-3 digits, `KT`. -/
def windTail (m : List Char) : Bool :=
  startsKT m ||
    (match m with
     | 'G' :: r => (digitsRun r 3 && startsKT (r.drop 3)) || (digitsRun r 2 && startsKT (r.drop 2))
     | _ => false)

/-- The wind shape `\d{3}\d{2,3}(G\d{2,3})?KT` starts at the head of `l`. -/
def windAt (l : List Char) : Bool :=
  digitsRun l 3 &&
    ((digitsRun (l.drop 3) 3 && windTail (l.drop 6)) ||
     (digitsRun (l.drop 3) 2 && windTail (l.drop 5)))

/-- Some position of `l` carries the wind shape — exactly when
`re.search(r'(\d{3})(\d{2,3})(?:G(\d{2,3}))?KT', s)` matches. -/
def hasWindPattern : List Char → Bool
  | [] => false
  | c :: rest => windAt (c :: rest) || hasWindPattern rest

/-! ## Claim C3: extraction is total and degrades to the sentinel -/

theorem hasTempPattern_cons (c : Char) (l : List Char) (h : hasTempPattern l = true) :
    hasTempPattern (c :: l) = true := by
  match l with
  | [] => simp [hasTempPattern] at h
  | [a] => simp [hasTempPattern] at h
  | a :: b :: t => simp [hasTempPattern, h]

theorem hasTempPattern_run (d : Char) (t : List Char) (hd : d.isDigit = true) :
    ∀ (ds : List Char), ds ≠ [] → (∀ x ∈ ds, x.isDigit = true) →
      hasTempPattern (ds ++ '/' :: d :: t) = true := by
  intro ds
  induction ds with
  | nil => intro hne _; exact absurd rfl hne
  | cons a ds' ih =>
    intro _ hdig
    cases ds' with
    | nil => simp [hasTempPattern, hdig a (by simp), hd]
    | cons b ds'' =>
      exact hasTempPattern_cons a _
        (ih (by simp) (fun x hx => hdig x (by simp [hx])))

theorem findTemp_hasTempPattern (l : List Char) :
    ∀ ds : List Char, findTemp l = some ds → hasTempPattern l = true := by
  induction l with
  | nil => intro ds h; simp [findTemp] at h
  | cons c rest ih =>
    intro ds h
    rw [findTemp] at h
    by_cases hc : c.isDigit
    · rw [if_pos hc] at h
      revert h
      split
      · rename_i d tail heq
        intro h
        by_cases hd : d.isDigit
        · have hsplit : (c :: rest).takeWhile Char.isDigit ++ '/' :: d :: tail = c :: rest := by
            conv_rhs => rw [← List.takeWhile_append_dropWhile (p := Char.isDigit) (l := c :: rest)]
            rw [heq]
          rw [← hsplit]
          refine hasTempPattern_run d tail hd _ ?_ ?_
          · simp [List.takeWhile_cons, hc]
          · intro x hx
            exact List.mem_takeWhile_imp hx
        · rw [if_neg hd] at h
          exact hasTempPattern_cons c rest (ih ds h)
      · intro h
        exact hasTempPattern_cons c rest (ih ds h)
    · rw [if_neg hc] at h
      exact hasTempPattern_cons c rest (ih ds h)

theorem grabDigits_eq (l : List Char) (n : Nat) (t r : List Char)
    (h : grabDigits l n = some (t, r)) :
    digitsRun l n = true ∧ r = l.drop n := by
  unfold grabDigits at h
  split at h
  · rename_i hcond
    injection h with h'
    rw [Prod.mk.injEq] at h'
    exact ⟨by simp [digitsRun, hcond.1, hcond.2], h'.2.symm⟩
  · exact absurd h (by simp)

theorem tryNoGust_startsKT (dir spd r2 : List Char) (g : WindGroups)
    (h : tryNoGust dir spd r2 = some g) : startsKT r2 = true := by
  unfold tryNoGust at h
  split at h
  · assumption
  · exact absurd h (by simp)

theorem tryGust_windTail (dir spd r2 : List Char) (g : WindGroups)
    (h : tryGust dir spd r2 = some g) : windTail r2 = true := by
  unfold tryGust at h
  split at h
  · rename_i r3
    revert h
    split
    · rename_i g3 r4 heq3
      obtain ⟨hd3, hr4⟩ := grabDigits_eq r3 3 g3 r4 heq3
      subst hr4
      intro h
      split at h
      · rename_i hKT
        simp [windTail, hd3, hKT]
      · revert h
        split
        · rename_i g2 r5 heq2
          obtain ⟨hd2, hr5⟩ := grabDigits_eq r3 2 g2 r5 heq2
          subst hr5
          intro h
          split at h
          · rename_i hKT
            simp [windTail, hd2, hKT]
          · exact absurd h (by simp)
        · intro h; exact absurd h (by simp)
    · rename_i heq3
      split
      · rename_i g2 r5 heq2
        obtain ⟨hd2, hr5⟩ := grabDigits_eq r3 2 g2 r5 heq2
        subst hr5
        intro h
        split at h
        · rename_i hKT
          simp [windTail, hd2, hKT]
        · exact absurd h (by simp)
      · intro h; exact absurd h (by simp)
  · exact absurd h (by simp)

theorem trySpeed_spec (dir r1 : List Char) (n : Nat) (g : WindGroups)
    (h : trySpeed dir r1 n = some g) :
    digitsRun r1 n = true ∧ windTail (r1.drop n) = true := by
  unfold trySpeed at h
  split at h
  · rename_i spd r2 heq
    obtain ⟨hd, hr⟩ := grabDigits_eq r1 n spd r2 heq
    subst hr
    refine ⟨hd, ?_⟩
    split at h
    · rename_i g' heq2
      exact tryGust_windTail dir spd _ g' heq2
    · have hKT := tryNoGust_startsKT dir spd _ g h
      simp [windTail, hKT]
  · exact absurd h (by simp)

theorem matchWindAt_windAt (l : List Char) (g : WindGroups)
    (h : matchWindAt l = some g) : windAt l = true := by
  unfold matchWindAt at h
  split at h
  · rename_i dir r1 heq
    obtain ⟨h3, hr1⟩ := grabDigits_eq l 3 dir r1 heq
    subst hr1
    split at h
    · rename_i g' heq3
      obtain ⟨hs, ht⟩ := trySpeed_spec dir _ 3 g' heq3
      rw [List.drop_drop] at ht
      norm_num at ht
      simp [windAt, h3, hs, ht]
    · obtain ⟨hs, ht⟩ := trySpeed_spec dir _ 2 g h
      rw [List.drop_drop] at ht
      norm_num at ht
      simp [windAt, h3, hs, ht]
  · exact absurd h (by simp)

theorem findWind_hasWindPattern (l : List Char) :
    ∀ g : WindGroups, findWind l = some g → hasWindPattern l = true := by
  induction l with
  | nil => intro g h; simp [findWind] at h
  | cons c rest ih =>
    intro g h
    rw [findWind] at h
    split at h
    · rename_i g' heq
      simp [hasWindPattern, matchWindAt_windAt _ g' heq]
    · simp [hasWindPattern, ih g h]

/-- C3: METAR field extraction is total and degrades per field: for every
input string (the empty string included) in which the temperature pattern is
absent, `_extract_temperature_from_metar` returns the `None` sentinel rather
than raising, and likewise `_extract_wind_from_metar` for strings without
the wind pattern.  (The Lean embeddings are total functions into `Option`,
mirroring that no input makes the Python extractors throw.) -/
theorem metar_extraction_degrades (s : String) :
    (hasTempPattern s.data = false → extract_temperature_from_metar s = none)
      ∧ (hasWindPattern s.data = false → extract_wind_from_metar s = none) := by
  constructor
  · intro hT
    unfold extract_temperature_from_metar
    split
    · rfl
    · cases hft : findTemp s.data with
      | none => simp
      | some ds =>
        exact absurd (findTemp_hasTempPattern s.data ds hft) (by simp [hT])
  · intro hW
    unfold extract_wind_from_metar
    split
    · rfl
    · cases hfw : findWind s.data with
      | none => simp
      | some g =>
        exact absurd (findWind_hasWindPattern s.data g hfw) (by simp [hW])

theorem metar_extraction_degrades_witness :
    extract_temperature_from_metar "HELLO WORLD" = none
      ∧ extract_wind_from_metar "HELLO WORLD" = none :=
  ⟨(metar_extraction_degrades "HELLO WORLD").1 (by decide),
   (metar_extraction_degrades "HELLO WORLD").2 (by decide)⟩

/-! ## The Alternator

`src/test_line1_switching.py` exercises `alternating_text` and
`compute_display_state` from a module `display_engine` that is not present
under `src/`; only this test harness of it is.  The definitions below are
therefore modelled from the spec instead of from source. -/

/-- Modelled from the spec: the Alternator contract of the missing
`display_engine` module — `currentIndex(candidates, dwellSeconds, now,
referenceTime) = floor((now - referenceTime) / dwellSeconds) mod
len(candidates)`, a pure function of elapsed time.  Wall-clock seconds are
modelled as `Rat`; `mod` is Python `%`, which agrees with `Int.emod` for a
positive modulus. -/
def currentIndex (candidates : List String) (dwellSeconds now referenceTime : ℚ) : Int :=
  ⌊(now - referenceTime) / dwellSeconds⌋ % (candidates.length : Int)

/-- Modelled from the spec: the candidate selected at time `now`
(`candidates[currentIndex(...)]`). -/
def selectedCandidate (candidates : List String) (dwellSeconds now referenceTime : ℚ) :
    Option String :=
  candidates[(currentIndex candidates dwellSeconds now referenceTime).toNat]?

/-- Modelled from the spec: `alternating_text(candidates, dwellSeconds, now)`
as called by `src/test_line1_switching.py`, with reference time 0. -/
def alternating_text (candidates : List String) (dwellSeconds now : ℚ) : Option String :=
  selectedCandidate candidates dwellSeconds now 0

/-! ## Claim C1: the alternator is a pure function of elapsed time -/

/-- C1: for every non-empty candidate list and positive dwell, the selected
index is `floor((now - referenceTime) / dwellSeconds) mod len(candidates)`
and lies in range (so a candidate is always returned); two queries whose
times fall in the same dwell window (equal floors) select the identical
candidate; and at a time exactly equal to a dwell boundary
`referenceTime + k * dwellSeconds` the index of the *new* window, `k mod
len(candidates)`, is selected (the index increments at the boundary itself). -/
theorem alternator_pure_of_elapsed_time (cs : List String) (d t₁ t₂ r : ℚ) (k : Int)
    (hcs : cs ≠ []) (hd : 0 < d)
    (hw : ⌊(t₁ - r) / d⌋ = ⌊(t₂ - r) / d⌋) :
    currentIndex cs d t₁ r = ⌊(t₁ - r) / d⌋ % (cs.length : Int)
      ∧ (0 ≤ currentIndex cs d t₁ r ∧ currentIndex cs d t₁ r < (cs.length : Int))
      ∧ currentIndex cs d t₁ r = currentIndex cs d t₂ r
      ∧ selectedCandidate cs d t₁ r = selectedCandidate cs d t₂ r
      ∧ (selectedCandidate cs d t₁ r).isSome = true
      ∧ currentIndex cs d (r + (k : ℚ) * d) r = k % (cs.length : Int) := by
  have hlen : (0 : Int) < (cs.length : Int) := by
    have := List.length_pos.mpr hcs
    exact_mod_cast this
  have hbounds : 0 ≤ currentIndex cs d t₁ r ∧ currentIndex cs d t₁ r < (cs.length : Int) :=
    ⟨Int.emod_nonneg _ (ne_of_gt hlen), Int.emod_lt_of_pos _ hlen⟩
  have hsame : currentIndex cs d t₁ r = currentIndex cs d t₂ r := by
    unfold currentIndex
    rw [hw]
  refine ⟨rfl, hbounds, hsame, by rw [selectedCandidate, selectedCandidate, hsame], ?_, ?_⟩
  · have hlt : (currentIndex cs d t₁ r).toNat < cs.length := by
      omega
    rw [selectedCandidate, List.getElem?_eq_getElem hlt]
    rfl
  · have hd0 : d ≠ 0 := ne_of_gt hd
    unfold currentIndex
    rw [show r + (k : ℚ) * d - r = (k : ℚ) * d by ring, mul_div_assoc, div_self hd0,
      mul_one, Int.floor_intCast]

theorem alternator_pure_of_elapsed_time_witness :
    currentIndex ["NO RWY 04 ARRIVALS", "WEATHER AT KLGA:"] 5 6 0 =
        ⌊(((6 : ℚ)) - 0) / 5⌋ % ((2 : Nat) : Int)
      ∧ (0 ≤ currentIndex ["NO RWY 04 ARRIVALS", "WEATHER AT KLGA:"] 5 6 0
          ∧ currentIndex ["NO RWY 04 ARRIVALS", "WEATHER AT KLGA:"] 5 6 0 < ((2 : Nat) : Int))
      ∧ currentIndex ["NO RWY 04 ARRIVALS", "WEATHER AT KLGA:"] 5 6 0 =
          currentIndex ["NO RWY 04 ARRIVALS", "WEATHER AT KLGA:"] 5 (139 / 20) 0
      ∧ selectedCandidate ["NO RWY 04 ARRIVALS", "WEATHER AT KLGA:"] 5 6 0 =
          selectedCandidate ["NO RWY 04 ARRIVALS", "WEATHER AT KLGA:"] 5 (139 / 20) 0
      ∧ (selectedCandidate ["NO RWY 04 ARRIVALS", "WEATHER AT KLGA:"] 5 6 0).isSome = true
      ∧ currentIndex ["NO RWY 04 ARRIVALS", "WEATHER AT KLGA:"] 5 (0 + (1 : Int) * 5) 0 =
          1 % ((2 : Nat) : Int) := by
  have h1 : ⌊(((6 : ℚ)) - 0) / 5⌋ = 1 := by
    rw [Int.floor_eq_iff]
    norm_num
  have h2 : ⌊(((139 : ℚ) / 20) - 0) / 5⌋ = 1 := by
    rw [Int.floor_eq_iff]
    norm_num
  have hlist : (["NO RWY 04 ARRIVALS", "WEATHER AT KLGA:"] : List String).length = 2 := rfl
  have := alternator_pure_of_elapsed_time ["NO RWY 04 ARRIVALS", "WEATHER AT KLGA:"]
    5 6 (139 / 20) 0 1 (by simp) (by norm_num) (h1.trans h2.symm)
  simpa [hlist] using this

end FlightAnnouncer
